import Mathlib

/-!
Shallow embedding of the analytics-dashboard application (`src/app.py`):
the tabular data model, the three source loaders, the validator, the
column classifier, the session state updated by the sidebar branches,
the charts-tab guard, the missing-value report and the export tab.
-/

set_option autoImplicit false

/-- A JSON value, as produced by decoding an HTTP response body.
Numbers are modelled as integers (no claim depends on float arithmetic). -/
inductive Json where
  | null
  | bool (b : Bool)
  | num (n : Int)
  | str (s : String)
  | arr (elems : List Json)
  | obj (fields : List (String × Json))

mutual

/-- Structural equality test on JSON values (python `==` on decoded data). -/
def Json.beq : Json → Json → Bool
  | .null, .null => true
  | .bool a, .bool b => a == b
  | .num a, .num b => a == b
  | .str a, .str b => a == b
  | .arr a, .arr b => Json.beqList a b
  | .obj a, .obj b => Json.beqFields a b
  | _, _ => false

def Json.beqList : List Json → List Json → Bool
  | [], [] => true
  | a :: as, b :: bs => Json.beq a b && Json.beqList as bs
  | _, _ => false

def Json.beqFields : List (String × Json) → List (String × Json) → Bool
  | [], [] => true
  | a :: as, b :: bs => (a.1 == b.1) && Json.beq a.2 b.2 && Json.beqFields as bs
  | _, _ => false

end

instance : BEq Json := ⟨Json.beq⟩

/-- The pandas dtypes relevant to this application: the four numeric dtypes
named in `select_dtypes(include=['int64','float64','int32','float32'])`, the
three "categorical" dtypes named in
`select_dtypes(include=['object','category','string'])`, plus datetime and
bool which belong to neither selection. -/
inductive Dtype where
  | int64
  | int32
  | float64
  | float32
  | object
  | category
  | stringDt
  | datetime64
  | boolDt
deriving DecidableEq

/-- A pandas DataFrame, row-major: a cell is `none` for a missing entry
(NaN / None).  `rows.length` models `len(df)` (the index length), which is
independent of the number of columns: `pd.DataFrame([{}])` has one index row
and zero columns. -/
structure DataFrame where
  colNames : List String
  dtypes : List Dtype
  rows : List (List (Option Json))

def DataFrame.nRows (df : DataFrame) : Nat := df.rows.length

def DataFrame.nCols (df : DataFrame) : Nat := df.colNames.length

/-- pandas `df.empty`: true when either axis has length zero. -/
def DataFrame.pdEmpty (df : DataFrame) : Bool :=
  df.nRows == 0 || df.nCols == 0

/-- Well-formedness: every row has one cell per column, and there is one
dtype per column. -/
def DataFrame.WF (df : DataFrame) : Prop :=
  df.dtypes.length = df.colNames.length ∧ ∀ r ∈ df.rows, r.length = df.nCols

/-- A JSON value stored into a cell; JSON `null` becomes a missing entry. -/
def jsonToCell (j : Json) : Option Json :=
  match j with
  | .null => none
  | j => some j

/-- Python dict lookup on a decoded JSON object (later duplicate keys shadow
earlier ones, as in `json.loads`). -/
def objGet (fields : List (String × Json)) (k : String) : Option Json :=
  (fields.reverse.find? (fun f => f.1 == k)).map (fun f => f.2)

/-- `key in data` for a decoded JSON object. -/
def objHasKey (fields : List (String × Json)) (k : String) : Bool :=
  fields.any (fun f => f.1 == k)

/-- First-appearance-ordered union of the keys of a list of records:
the column order pandas gives `pd.DataFrame(list_of_dicts)`. -/
def keysUnion (fieldss : List (List (String × Json))) : List String :=
  fieldss.foldl
    (fun acc fields =>
      fields.foldl (fun acc2 f => if acc2.contains f.1 then acc2 else acc2 ++ [f.1]) acc)
    []

/-- Abstraction of pandas per-column dtype inference: all ints gives int64,
ints with missing entries give float64, all bools give bool, anything else
(strings, nested structures, mixtures) is object. -/
def inferDtype (cells : List (Option Json)) : Dtype :=
  if cells.all (fun c => match c with | some (.num _) => true | _ => false) then .int64
  else if cells.all (fun c => match c with | some (.num _) => true | none => true | _ => false) then .float64
  else if cells.all (fun c => match c with | some (.bool _) => true | _ => false) then .boolDt
  else .object

/-- `pd.DataFrame(elems)` for a decoded JSON list: one row per element.
A list of objects keys the columns by first appearance; a list of arrays
uses positional column labels padded to the longest row; a list of scalars
becomes a single column `0`.  Mixing the three shapes raises, modelled as
`.error`. -/
def dfOfRecords (elems : List Json) : Except String DataFrame :=
  if elems.isEmpty then .ok ⟨[], [], []⟩
  else if elems.all (fun e => e matches .obj _) then
    let fieldss := elems.map (fun e => match e with | .obj fs => fs | _ => [])
    let names := keysUnion fieldss
    let rows := fieldss.map (fun fs => names.map (fun k => (objGet fs k).bind jsonToCell))
    .ok ⟨names, (List.range names.length).map (fun j => inferDtype (rows.map (fun r => r.getD j none))), rows⟩
  else if elems.all (fun e => e matches .arr _) then
    let lists := elems.map (fun e => match e with | .arr xs => xs | _ => [])
    let n := (lists.map List.length).foldl Nat.max 0
    let rows := lists.map (fun xs => (List.range n).map (fun j => (xs.getD j .null) |> jsonToCell))
    .ok ⟨(List.range n).map (fun j => toString j),
         (List.range n).map (fun j => inferDtype (rows.map (fun r => r.getD j none))), rows⟩
  else if elems.all (fun e => match e with | .obj _ => false | .arr _ => false | _ => true) then
    .ok ⟨["0"], [inferDtype (elems.map jsonToCell)], elems.map (fun e => [jsonToCell e])⟩
  else .error "mixed record shapes"

/-- `pd.DataFrame(fields)` for a decoded JSON object: a dict of columns.
Every value must be a list and all lists equally long; other shapes
(scalar broadcast, dict-valued entries) are modelled as errors. -/
def dfOfColumns (fields : List (String × Json)) : Except String DataFrame :=
  if fields.all (fun f => f.2 matches .arr _) then
    let colLists := fields.map (fun f => match f.2 with | .arr xs => xs.map jsonToCell | _ => [])
    match colLists.map List.length with
    | [] => .ok ⟨[], [], []⟩
    | n :: ns =>
      if ns.all (fun m => m == n) then
        .ok ⟨fields.map (fun f => f.1), colLists.map inferDtype,
             (List.range n).map (fun i => colLists.map (fun col => col.getD i none))⟩
      else .error "arrays must all be same length"
  else .error "unsupported column value shape"

/-- `pd.DataFrame(x)` for an arbitrary decoded JSON value.
`pd.DataFrame(None)` yields an empty frame; a scalar argument raises. -/
def pdDataFrame : Json → Except String DataFrame
  | .arr elems => dfOfRecords elems
  | .obj fields => dfOfColumns fields
  | .null => .ok ⟨[], [], []⟩
  | _ => .error "DataFrame constructor not properly called"

/-- The observable outcome of one loader call: a returned table, a `None`
return after displaying an error message, or an exception that propagates
out of the loader uncaught. -/
inductive LoaderOutcome where
  | table (df : DataFrame)
  | noneResult (msg : String)
  | uncaught (msg : String)

def outcomeOfPd : Except String DataFrame → LoaderOutcome
  | .ok df => .table df
  | .error e => .uncaught e

/-- `load_csv` (app.py:21-24): `return pd.read_csv(file)` with no
try/except, so a parse failure propagates as the raised exception.
The input models the outcome of `pd.read_csv`. -/
def load_csv (parsed : Except String DataFrame) : LoaderOutcome :=
  match parsed with
  | .ok df => .table df
  | .error e => .uncaught e

/-- `load_snowflake_data` (app.py:27-39): the whole body is wrapped in
`try ... except Exception`, displaying the message and returning `None`.
The input models the outcome of connecting and running the query. -/
def load_snowflake_data (queryResult : Except String DataFrame) : LoaderOutcome :=
  match queryResult with
  | .ok df => .table df
  | .error e => .noneResult ("Snowflake connection error: " ++ e)

/-- Outcome of `requests.get(endpoint, timeout=30)` followed by
`raise_for_status()` and `.json()`: a timeout, another
`requests.exceptions.RequestException` (transport or HTTP status failure),
or a decoded JSON body. -/
inductive HttpResult where
  | timeout
  | requestError (msg : String)
  | ok (body : Json)

/-- The ordered key-preference list of app.py:55. -/
def preferredKeys : List String := ["data", "results", "items", "records"]

/-- The first key of the preference list present in the object
(`for key in [...]: if key in data:` at app.py:55-56). -/
def firstPreferred (fields : List (String × Json)) : Option String :=
  preferredKeys.find? (fun k => objHasKey fields k)

/-- `fetch_api_data` (app.py:42-65): a list body gives `pd.DataFrame(data)`;
an object body is searched for the first preferred key, whose value goes to
`pd.DataFrame(data[key])`, and with no preferred key the whole object
becomes `pd.DataFrame([data])`; any other body gives `pd.DataFrame()`.
Timeout and request exceptions are caught and yield `None` with a message. -/
def fetch_api_data : HttpResult → LoaderOutcome
  | .timeout => .noneResult "API request timed out. Please try again."
  | .requestError e => .noneResult ("API error: " ++ e)
  | .ok (.arr elems) => outcomeOfPd (dfOfRecords elems)
  | .ok (.obj fields) =>
    match firstPreferred fields with
    | some k => outcomeOfPd (pdDataFrame ((objGet fields k).getD .null))
    | none => outcomeOfPd (dfOfRecords [Json.obj fields])
  | .ok _ => .table ⟨[], [], []⟩

/-- `validate_dataframe` (app.py:68-78): fails when the reference is `None`
or `df.empty`, then (unreachably, since `empty` covers it) when
`len(df) < 1`. -/
def validate_dataframe (odf : Option DataFrame) : Bool :=
  match odf with
  | none => false
  | some df =>
    if df.pdEmpty then false
    else if df.nRows < 1 then false
    else true

def numericDtypes : List Dtype := [.int64, .float64, .int32, .float32]

def categoricalDtypes : List Dtype := [.object, .category, .stringDt]

/-- `get_numeric_columns` (app.py:81-83): names of the columns whose dtype
is in the numeric include list, in column order. -/
def get_numeric_columns (df : DataFrame) : List String :=
  ((df.colNames.zip df.dtypes).filter (fun p => numericDtypes.contains p.2)).map Prod.fst

/-- `get_categorical_columns` (app.py:86-88). -/
def get_categorical_columns (df : DataFrame) : List String :=
  ((df.colNames.zip df.dtypes).filter (fun p => categoricalDtypes.contains p.2)).map Prod.fst

/-- The three `st.session_state` slots initialised at app.py:16-18. -/
structure SessionState where
  df : Option DataFrame
  data_source : Option String
  uploaded_filename : Option String

def initState : SessionState := ⟨none, none, none⟩

/-- The CSV-upload branch (app.py:111-118): on a successful parse all three
slots are written; a parse exception escapes `load_csv` before any
assignment, leaving the state unchanged. -/
def csvBranch (s : SessionState) (fileName : String)
    (parsed : Except String DataFrame) : SessionState :=
  match load_csv parsed with
  | .table df => ⟨some df, some "CSV", some fileName⟩
  | _ => s

/-- The Snowflake branch (app.py:131-137): on `df is not None` it writes
`df` and `data_source` — and nothing else. -/
def snowflakeBranch (s : SessionState)
    (queryResult : Except String DataFrame) : SessionState :=
  match load_snowflake_data queryResult with
  | .table df => { s with df := some df, data_source := some "Snowflake" }
  | _ => s

/-- The API branch (app.py:149-155): on `df is not None` it writes `df` and
`data_source` — and nothing else. -/
def apiBranch (s : SessionState) (http : HttpResult) : SessionState :=
  match fetch_api_data http with
  | .table df => { s with df := some df, data_source := some "API" }
  | _ => s

/-- The Dataset Info caption (app.py:160-166): shown when a table is loaded
and `uploaded_filename` is truthy (a non-empty string). -/
def sidebarFileCaption (s : SessionState) : Option String :=
  match s.df, s.uploaded_filename with
  | some _, some fn => if fn == "" then none else some ("File: " ++ fn)
  | _, _ => none

inductive ChartType where
  | bar
  | line
  | scatter
  | box
  | histogram
deriving DecidableEq

/-- The column choices each role selector offers, per chart kind
(app.py:252-269).  `none` entries are the `None` options of the optional
selectors; an empty `yOptions` means the kind has no y selector. -/
structure RoleDomains where
  xOptions : List (Option String)
  yOptions : List String
  colorOptions : List (Option String)

def roleDomains (df : DataFrame) (ct : ChartType) : RoleDomains :=
  let numeric := get_numeric_columns df
  let cat := get_categorical_columns df
  match ct with
  | .bar => ⟨df.colNames.map some, numeric, none :: cat.map some⟩
  | .line => ⟨df.colNames.map some, numeric, none :: cat.map some⟩
  | .scatter => ⟨numeric.map some, numeric, none :: cat.map some⟩
  | .box => ⟨none :: cat.map some, numeric, []⟩
  | .histogram => ⟨numeric.map some, [], none :: cat.map some⟩

inductive ChartsTabResult where
  | refusedNoNumeric
  | proceeded (domains : RoleDomains)

/-- The Charts tab (app.py:230-297): when the table has no numeric column a
warning is issued and `st.stop()` ends the render before the chart-type
selector or any chart construction is reached; otherwise the role selectors
for the chosen kind are offered. -/
def chartsTab (df : DataFrame) (ct : ChartType) : ChartsTabResult :=
  if (get_numeric_columns df).isEmpty then .refusedNoNumeric
  else .proceeded (roleDomains df ct)

/-- Cells of column `j`, as `df.isnull()` reads them. -/
def DataFrame.columnCells (df : DataFrame) (j : Nat) : List (Option Json) :=
  df.rows.map (fun r => r.getD j none)

def countMissing (cells : List (Option Json)) : Nat :=
  cells.countP (fun c => c.isNone)

/-- `missing = df.isnull().sum()` (app.py:332): per-column missing counts. -/
def missingCountsByCol (df : DataFrame) : List Nat :=
  (List.range df.nCols).map (fun j => countMissing (df.columnCells j))

/-- The `missing_df` rows before filtering (app.py:333-337), column name
paired with its missing count (the percentage column is derived from the
same counts and not needed by any property). -/
def missingSeries (df : DataFrame) : List (String × Nat) :=
  df.colNames.zip (missingCountsByCol df)

/-- `missing_df = missing_df[missing_df['Missing Count'] > 0]` (app.py:338). -/
def missingReport (df : DataFrame) : List (String × Nat) :=
  (missingSeries df).filter (fun p => decide (0 < p.2))

/-- app.py:340-343: the success message replaces the report table exactly
when the filtered report is empty. -/
def noMissingMessageShown (df : DataFrame) : Bool :=
  (missingReport df).isEmpty

/-- The table-wide number of missing entries, counted row-wise. -/
def totalNulls (df : DataFrame) : Nat :=
  (df.rows.map (fun r => r.countP (fun c => c.isNone))).sum

/-- `df[df[filter_col].isin(selected_values)]` (app.py:392): a fresh frame
keeping exactly the rows whose value in the filter column is a member of
the selected set. -/
def filteredDf (df : DataFrame) (filterCol : String)
    (selected : List (Option Json)) : DataFrame :=
  let j := df.colNames.findIdx (fun n => n == filterCol)
  let mask := (df.columnCells j).map (fun cell => selected.contains cell)
  ⟨df.colNames, df.dtypes,
   (df.rows.zip mask).filterMap (fun p => if p.2 then some p.1 else none)⟩

structure ExportArtifacts where
  mainExport : Option DataFrame
  filteredExport : Option DataFrame

/-- The Export tab (app.py:345-402): serializes the current table to CSV
and Excel, and, when the table has a categorical column and some filter
values are selected, additionally builds the filtered frame.  No
`st.session_state` slot is written anywhere in the tab, so the session
state is returned unchanged. -/
def exportTab (s : SessionState) (filterCol : String)
    (selected : List (Option Json)) : SessionState × ExportArtifacts :=
  match s.df with
  | none => (s, ⟨none, none⟩)
  | some df =>
    let filtered :=
      if (get_categorical_columns df).isEmpty then none
      else if selected.isEmpty then none
      else some (filteredDf df filterCol selected)
    (s, ⟨some df, filtered⟩)

example : fetch_api_data (.ok (.obj [])) = .table ⟨[], [], [[]]⟩ := rfl

example : fetch_api_data (.ok (.arr [])) = .table ⟨[], [], []⟩ := rfl

example :
    fetch_api_data (.ok (.obj [("items", .arr [.obj [("a", .num 1)], .obj [("a", .num 2)]])]))
      = .table ⟨["a"], [.int64], [[some (.num 1)], [some (.num 2)]]⟩ := rfl

example : validate_dataframe (some ⟨[], [], [[]]⟩) = false := rfl

/-! ## General list lemmas -/

theorem sum_map_add {α : Type} (f g : α → Nat) (l : List α) :
    (l.map (fun x => f x + g x)).sum = (l.map f).sum + (l.map g).sum := by
  induction l with
  | nil => rfl
  | cons a l ih =>
    simp only [List.map_cons, List.sum_cons, ih]
    omega

theorem sum_ite_getD {α : Type} (p : α → Bool) (d : α) (r : List α) :
    ((List.range r.length).map (fun j => if p (r.getD j d) then 1 else 0)).sum
      = r.countP p := by
  induction r with
  | nil => rfl
  | cons a r ih =>
    rw [List.length_cons, List.range_succ_eq_map, List.map_cons, List.map_map]
    simp only [Function.comp_def, Nat.succ_eq_add_one, List.getD_cons_succ,
      List.getD_cons_zero, List.sum_cons, ih, List.countP_cons]
    omega

theorem col_sum_eq_row_sum {α : Type} (p : α → Bool) (d : α) (n : Nat)
    (rows : List (List α)) (h : ∀ r ∈ rows, r.length = n) :
    ((List.range n).map (fun j => (rows.map (fun r => r.getD j d)).countP p)).sum
      = (rows.map (fun r => r.countP p)).sum := by
  induction rows with
  | nil =>
    simp only [List.map_nil, List.countP_nil, List.sum_nil]
    exact List.sum_eq_zero (by intro x hx; rcases List.mem_map.1 hx with ⟨j, _, rfl⟩; rfl)
  | cons r rows ih =>
    have hr : r.length = n := h r (List.mem_cons.2 (Or.inl rfl))
    have hrest : ∀ r2 ∈ rows, r2.length = n :=
      fun r2 hm => h r2 (List.mem_cons.2 (Or.inr hm))
    simp only [List.map_cons, List.countP_cons, List.sum_cons]
    rw [sum_map_add (fun j => (rows.map (fun r2 => r2.getD j d)).countP p)
          (fun j => if p (r.getD j d) then 1 else 0) (List.range n),
        ih hrest, ← hr, sum_ite_getD]
    omega

theorem filter_pos_sum (l : List (String × Nat)) :
    ((l.filter (fun p => decide (0 < p.2))).map Prod.snd).sum
      = (l.map Prod.snd).sum := by
  induction l with
  | nil => rfl
  | cons a l ih =>
    by_cases h : 0 < a.2
    · simp [List.filter_cons, h, ih]
    · have h0 : a.2 = 0 := by omega
      simp [List.filter_cons, h, ih, h0]

theorem zip_map_fst_sublist {α β : Type} (l₁ : List α) (l₂ : List β) :
    ((l₁.zip l₂).map Prod.fst).Sublist l₁ := by
  induction l₁ generalizing l₂ with
  | nil => simp
  | cons a l ih =>
    cases l₂ with
    | nil => simp
    | cons b l₂ =>
      rw [List.zip_cons_cons, List.map_cons]
      exact (ih l₂).cons₂ a

theorem zip_filter_map_fst_sublist {α β : Type} (p : α × β → Bool)
    (l₁ : List α) (l₂ : List β) :
    (((l₁.zip l₂).filter p).map Prod.fst).Sublist l₁ :=
  (((l₁.zip l₂).filter_sublist).map Prod.fst).trans (zip_map_fst_sublist l₁ l₂)

theorem zip_fun_like {α β : Type} {l₁ : List α} {l₂ : List β} (h : l₁.Nodup)
    {a : α} {b b' : β} (h1 : (a, b) ∈ l₁.zip l₂) (h2 : (a, b') ∈ l₁.zip l₂) :
    b = b' := by
  induction l₁ generalizing l₂ with
  | nil => simp at h1
  | cons x l ih =>
    cases l₂ with
    | nil => simp at h1
    | cons y l₂ =>
      rw [List.zip_cons_cons, List.mem_cons, Prod.mk.injEq] at h1 h2
      rcases List.nodup_cons.1 h with ⟨hx, hl⟩
      rcases h1 with ⟨rfl, rfl⟩ | h1
      · rcases h2 with ⟨-, rfl⟩ | h2
        · rfl
        · exact absurd (List.of_mem_zip h2).1 hx
      · rcases h2 with ⟨rfl, rfl⟩ | h2
        · exact absurd (List.of_mem_zip h1).1 hx
        · exact ih hl h1 h2

theorem mask_filter {α : Type} (f : α → Bool) (rows : List α) :
    ((rows.zip (rows.map f)).filterMap (fun p => if p.2 then some p.1 else none))
      = rows.filter f := by
  induction rows with
  | nil => rfl
  | cons r rows ih =>
    rw [List.map_cons, List.zip_cons_cons, List.filterMap_cons, List.filter_cons]
    by_cases h : f r <;> simp [h, ih]

theorem takeWhile_append_of_not_mem (as bs : List String) (k : String)
    (h : k ∉ as) :
    ((as ++ k :: bs).takeWhile (fun x => !(x == k))) = as := by
  induction as with
  | nil => simp [List.takeWhile_cons]
  | cons a as ih =>
    have hne : ¬(a = k) := fun hh => h (List.mem_cons.2 (Or.inl hh.symm))
    have h2 : k ∉ as := fun hh => h (List.mem_cons.2 (Or.inr hh))
    rw [List.cons_append, List.takeWhile_cons]
    simp [hne, ih h2]

/-! ## Model-level lemmas -/

theorem outcomeOfPd_table {r : Except String DataFrame} {df : DataFrame}
    (h : outcomeOfPd r = .table df) : r = .ok df := by
  cases r with
  | ok d => cases h; rfl
  | error e => exact absurd h (by simp [outcomeOfPd])

/-- Whatever shape the list body has, `pd.DataFrame` on it produces one row
per element when it succeeds. -/
theorem dfOfRecords_nRows {elems : List Json} {df : DataFrame}
    (h : dfOfRecords elems = .ok df) : df.nRows = elems.length := by
  unfold dfOfRecords at h
  split_ifs at h with h1 h2 h3 h4
  · cases h
    simp [DataFrame.nRows, List.isEmpty_iff.1 h1]
  · cases h
    simp [DataFrame.nRows]
  · cases h
    simp [DataFrame.nRows]
  · cases h
    simp [DataFrame.nRows]

/-! ## Claims -/

/-- C1, counterexample.  The claim says the API loader turns the body `{}`
into an empty table with zero rows.  In the code `{}` contains no preferred
key, so it takes the single-row branch `pd.DataFrame([data])`, whose result
has one index row (and zero columns): row count 1, not 0. -/
theorem C1_empty_object_counterexample :
    fetch_api_data (.ok (.obj [])) = .table ⟨[], [], [[]]⟩
    ∧ (DataFrame.mk [] [] [[]]).nRows = 1
    ∧ (DataFrame.mk [] [] [[]]).nRows ≠ 0 := by
  refine ⟨rfl, rfl, by decide⟩

/-- C1, amended.  An object body with none of the preferred keys — the
empty object included — always becomes a single-row table: for `{}` the
result has one row and zero columns (so it is "empty" in the pandas
`df.empty` sense and is rejected by the validator, but its row count is 1).
A zero-row table is returned for an empty list body and for a body that is
neither a list nor an object. -/
theorem C1_empty_bodies :
    fetch_api_data (.ok (.obj [])) = .table ⟨[], [], [[]]⟩
    ∧ (DataFrame.mk [] [] [[]]).nRows = 1
    ∧ (DataFrame.mk [] [] [[]]).nCols = 0
    ∧ validate_dataframe (some ⟨[], [], [[]]⟩) = false
    ∧ fetch_api_data (.ok (.arr [])) = .table ⟨[], [], []⟩
    ∧ fetch_api_data (.ok (.str "ok")) = .table ⟨[], [], []⟩
    ∧ (DataFrame.mk [] [] []).nRows = 0 :=
  ⟨rfl, rfl, rfl, rfl, rfl, rfl, rfl⟩

/-- C2, counterexample.  The claim says the validator accepts every table
with at least one row.  A one-row, zero-column table (exactly what the API
loader returns for the body `{}`) is rejected, because `df.empty` is true
whenever either axis has length zero. -/
theorem C2_one_row_no_columns_counterexample :
    validate_dataframe (some ⟨[], [], [[]]⟩) = false
    ∧ (DataFrame.mk [] [] [[]]).nRows = 1 :=
  ⟨rfl, rfl⟩

/-- C2, amended.  `validate_dataframe` returns true iff a table is present
and both its row count and its column count are positive; equivalently it
rejects exactly the absent reference and the tables with zero rows or zero
columns (pandas `df.empty`). -/
theorem C2_validator_characterization (odf : Option DataFrame) :
    validate_dataframe odf = true
      ↔ ∃ df, odf = some df ∧ 0 < df.nRows ∧ 0 < df.nCols := by
  cases odf with
  | none => simp [validate_dataframe]
  | some df =>
    simp only [validate_dataframe, DataFrame.pdEmpty, Option.some.injEq]
    by_cases h1 : df.nRows = 0
    · simp [h1]
    · by_cases h2 : df.nCols = 0
      · simp [h1, h2]
      · have hlt : ¬df.nRows < 1 := by omega
        simp [h1, h2, hlt, Nat.pos_of_ne_zero]

/-- C3, counterexample.  The claim says every loader-level error, in each of
the three loaders, is caught inside the loader.  `load_csv` contains no
try/except at all: a malformed CSV makes `pd.read_csv` raise, and the
exception propagates out of the loader uncaught instead of being converted
to a message and a `None` result. -/
theorem C3_csv_parse_error_counterexample :
    load_csv (.error "ParserError: Error tokenizing data")
      = .uncaught "ParserError: Error tokenizing data" := rfl

/-- C3, amended.  The warehouse loader catches every error of its body, and
the API loader catches its network-level errors (timeout and request /
HTTP-status exceptions), converting each to a user-visible message and a
`None` result; the file loader catches nothing, so a parse error propagates
out of it uncaught. -/
theorem C3_loader_error_boundaries :
    (∀ e, load_csv (.error e) = .uncaught e)
    ∧ (∀ e, load_snowflake_data (.error e)
        = .noneResult ("Snowflake connection error: " ++ e))
    ∧ fetch_api_data .timeout
        = .noneResult "API request timed out. Please try again."
    ∧ (∀ e, fetch_api_data (.requestError e) = .noneResult ("API error: " ++ e)) :=
  ⟨fun _ => rfl, fun _ => rfl, rfl, fun _ => rfl⟩

/-- C4, counterexample.  The claim says provenance is updated atomically
with the stored table on every successful load.  Load a CSV named
`sales.csv`, then successfully fetch from the API: the session now holds
the API table with `data_source = "API"`, yet `uploaded_filename` still
says `sales.csv`, and the Dataset Info sidebar captions the API table with
the previous load's filename. -/
theorem C4_stale_filename_counterexample :
    apiBranch (csvBranch initState "sales.csv"
        (.ok ⟨["value"], [.int64], [[some (.num 100)]]⟩))
        (.ok (.arr [.obj [("a", .num 1)]]))
      = ⟨some ⟨["a"], [.int64], [[some (.num 1)]]⟩, some "API", some "sales.csv"⟩
    ∧ sidebarFileCaption
        (apiBranch (csvBranch initState "sales.csv"
          (.ok ⟨["value"], [.int64], [[some (.num 100)]]⟩))
          (.ok (.arr [.obj [("a", .num 1)]])))
      = some "File: sales.csv" :=
  ⟨rfl, rfl⟩

/-- C4, amended.  On a successful load the stored table and the source kind
are updated together in every branch, and the CSV branch also updates the
filename; but the Snowflake and API branches leave `uploaded_filename`
untouched, so after one of those loads the session can hold a table whose
filename provenance describes an earlier CSV load. -/
theorem C4_provenance_updates :
    (∀ s fn df, csvBranch s fn (.ok df) = ⟨some df, some "CSV", some fn⟩)
    ∧ (∀ s q df, load_snowflake_data q = .table df →
        snowflakeBranch s q = ⟨some df, some "Snowflake", s.uploaded_filename⟩)
    ∧ (∀ s h df, fetch_api_data h = .table df →
        apiBranch s h = ⟨some df, some "API", s.uploaded_filename⟩) := by
  refine ⟨fun s fn df => rfl, fun s q df h => ?_, fun s h df hh => ?_⟩
  · simp only [snowflakeBranch, h]
  · simp only [apiBranch, hh]

/-- Witness for C4's amended theorem at a concrete state and load. -/
theorem C4_provenance_updates_witness :
    apiBranch ⟨none, none, some "sales.csv"⟩ (.ok (.arr [.obj [("a", .num 1)]]))
      = ⟨some ⟨["a"], [.int64], [[some (.num 1)]]⟩, some "API", some "sales.csv"⟩ :=
  C4_provenance_updates.2.2 ⟨none, none, some "sales.csv"⟩
    (.ok (.arr [.obj [("a", .num 1)]])) ⟨["a"], [.int64], [[some (.num 1)]]⟩ rfl

/-- C5.  The API loader's normalization precedence: a list body yields one
row per element; an object body is searched for the first matching key in
the preference order `["data", "results", "items", "records"]` — no key
earlier in that order is present — and that key's value is handed to the
table constructor, so a list value yields one row per element; an object
with none of these keys becomes a single-row table. -/
theorem C5_normalization_precedence :
    (∀ elems df, fetch_api_data (.ok (.arr elems)) = .table df →
      df.nRows = elems.length)
    ∧ (∀ fields k, firstPreferred fields = some k →
        fetch_api_data (.ok (.obj fields))
          = outcomeOfPd (pdDataFrame ((objGet fields k).getD .null))
        ∧ k ∈ preferredKeys
        ∧ objHasKey fields k = true
        ∧ ∀ k2 ∈ preferredKeys.takeWhile (fun x => !(x == k)),
            objHasKey fields k2 = false)
    ∧ (∀ fields k elems df, firstPreferred fields = some k →
        objGet fields k = some (.arr elems) →
        fetch_api_data (.ok (.obj fields)) = .table df →
        df.nRows = elems.length)
    ∧ (∀ fields df, firstPreferred fields = none →
        fetch_api_data (.ok (.obj fields)) = .table df → df.nRows = 1) := by
  have hobj : ∀ fields, fetch_api_data (.ok (.obj fields))
      = match firstPreferred fields with
        | some k => outcomeOfPd (pdDataFrame ((objGet fields k).getD .null))
        | none => outcomeOfPd (dfOfRecords [Json.obj fields]) := fun _ => rfl
  refine ⟨?_, ?_, ?_, ?_⟩
  · intro elems df h
    exact dfOfRecords_nRows (outcomeOfPd_table h)
  · intro fields k hk
    have hk' : preferredKeys.find? (fun x => objHasKey fields x) = some k := hk
    have hfk := List.find?_eq_some.1 hk'
    rcases hfk with ⟨hkey, as, bs, hdec, hbefore⟩
    have hknotas : k ∉ as := by
      intro hmem
      have := hbefore k hmem
      simp [hkey] at this
    refine ⟨?_, List.mem_of_find?_eq_some hk', List.find?_some hk', ?_⟩
    · rw [hobj fields, hk]
    · intro k2 hk2
      rw [hdec, takeWhile_append_of_not_mem as bs k hknotas] at hk2
      have := hbefore k2 hk2
      simpa using this
  · intro fields k elems df hk hv h
    rw [hobj fields, hk] at h
    simp only [hv, Option.getD_some] at h
    exact dfOfRecords_nRows (outcomeOfPd_table h)
  · intro fields df hk h
    rw [hobj fields, hk] at h
    have := dfOfRecords_nRows (outcomeOfPd_table h)
    simpa using this

/-- Witness for C5 at concrete bodies: the spec's `items` example gives two
rows; with both `results` and `data` present, `data` wins regardless of the
object's own field order; `{}` takes the single-row branch. -/
theorem C5_normalization_precedence_witness :
    (DataFrame.mk ["a"] [.int64] [[some (.num 1)], [some (.num 2)]]).nRows = 2
    ∧ fetch_api_data (.ok (.obj [("results", .arr [.num 7]), ("data", .arr [.num 5])]))
        = outcomeOfPd (pdDataFrame (.arr [.num 5]))
    ∧ (DataFrame.mk [] [] [[]]).nRows = 1 := by
  refine ⟨?_, ?_, ?_⟩
  · exact C5_normalization_precedence.2.2.1
      [("items", .arr [.obj [("a", .num 1)], .obj [("a", .num 2)]])] "items"
      [.obj [("a", .num 1)], .obj [("a", .num 2)]]
      ⟨["a"], [.int64], [[some (.num 1)], [some (.num 2)]]⟩ rfl rfl rfl
  · exact (C5_normalization_precedence.2.1
      [("results", .arr [.num 7]), ("data", .arr [.num 5])] "data" rfl).1
  · exact C5_normalization_precedence.2.2.2 [] ⟨[], [], [[]]⟩ rfl rfl

/-- C6, counterexample.  The claim says the two classifier lists are
disjoint for every table.  pandas permits duplicate column names (e.g. a
warehouse query `SELECT 1 AS a, 'x' AS a`), and the classifiers return
column *names*: with an int64 column and an object column both named `a`,
the name `a` appears in both lists. -/
theorem C6_duplicate_names_counterexample :
    get_numeric_columns ⟨["a", "a"], [.int64, .object],
        [[some (.num 1), some (.str "x")]]⟩ = ["a"]
    ∧ get_categorical_columns ⟨["a", "a"], [.int64, .object],
        [[some (.num 1), some (.str "x")]]⟩ = ["a"]
    ∧ "a" ∈ get_numeric_columns ⟨["a", "a"], [.int64, .object],
        [[some (.num 1), some (.str "x")]]⟩
    ∧ "a" ∈ get_categorical_columns ⟨["a", "a"], [.int64, .object],
        [[some (.num 1), some (.str "x")]]⟩ :=
  ⟨rfl, rfl, List.mem_singleton.2 rfl, List.mem_singleton.2 rfl⟩

/-- C6, amended.  The classifier lists are order-preserving sublists of the
column names (hence their union is a subset of all columns); every
integer/float-typed column's name appears in the numeric list and every
object/category/string-typed column's name in the categorical list; and
provided the table's column names are pairwise distinct, the two lists are
disjoint. -/
theorem C6_classifier_partition (df : DataFrame) :
    (get_numeric_columns df).Sublist df.colNames
    ∧ (get_categorical_columns df).Sublist df.colNames
    ∧ (∀ p ∈ df.colNames.zip df.dtypes, p.2 ∈ numericDtypes →
        p.1 ∈ get_numeric_columns df)
    ∧ (∀ p ∈ df.colNames.zip df.dtypes, p.2 ∈ categoricalDtypes →
        p.1 ∈ get_categorical_columns df)
    ∧ (df.colNames.Nodup →
        ∀ c ∈ get_numeric_columns df, c ∉ get_categorical_columns df) := by
  refine ⟨zip_filter_map_fst_sublist _ _ _, zip_filter_map_fst_sublist _ _ _,
    ?_, ?_, ?_⟩
  · intro p hp hd
    exact List.mem_map.2 ⟨p, List.mem_filter.2 ⟨hp, List.elem_iff.2 hd⟩, rfl⟩
  · intro p hp hd
    exact List.mem_map.2 ⟨p, List.mem_filter.2 ⟨hp, List.elem_iff.2 hd⟩, rfl⟩
  · intro hnd c hc1 hc2
    rcases List.mem_map.1 hc1 with ⟨p1, hp1, hf1⟩
    rcases List.mem_map.1 hc2 with ⟨p2, hp2, hf2⟩
    rcases List.mem_filter.1 hp1 with ⟨hz1, hd1⟩
    rcases List.mem_filter.1 hp2 with ⟨hz2, hd2⟩
    have hmem1 : (c, p1.2) ∈ df.colNames.zip df.dtypes := by
      rw [← hf1]; exact hz1
    have hmem2 : (c, p2.2) ∈ df.colNames.zip df.dtypes := by
      rw [← hf2]; exact hz2
    have heq : p1.2 = p2.2 := zip_fun_like hnd hmem1 hmem2
    have hn : p1.2 ∈ numericDtypes := List.elem_iff.1 hd1
    have hcat : p2.2 ∈ categoricalDtypes := List.elem_iff.1 hd2
    rw [← heq] at hcat
    simp only [numericDtypes, categoricalDtypes, List.mem_cons,
      List.not_mem_nil, or_false] at hn hcat
    rcases hn with h | h | h | h <;> simp [h] at hcat

/-- Witness for C6's amended theorem at the spec's example table
(`date,category,value`, with `value` the only numeric column). -/
theorem C6_classifier_partition_witness :
    "value" ∈ get_numeric_columns ⟨["date", "category", "value"],
        [.object, .object, .int64],
        [[some (.str "2024-01-01"), some (.str "A"), some (.num 100)],
         [some (.str "2024-01-02"), some (.str "B"), some (.num 150)]]⟩
    ∧ "value" ∉ get_categorical_columns ⟨["date", "category", "value"],
        [.object, .object, .int64],
        [[some (.str "2024-01-01"), some (.str "A"), some (.num 100)],
         [some (.str "2024-01-02"), some (.str "B"), some (.num 150)]]⟩ := by
  refine ⟨?_, ?_⟩
  · exact (C6_classifier_partition _).2.2.1 ("value", .int64) (by decide) (by decide)
  · exact (C6_classifier_partition _).2.2.2.2 (by decide) "value"
      (List.mem_singleton.2 rfl)

/-- C7.  For a well-formed table the missing-value report keeps exactly the
columns with at least one missing entry, the sum of the reported counts
equals the table-wide null count, and the "no missing values" message
replaces the report exactly when the table-wide null count is zero. -/
theorem C7_missing_value_report (df : DataFrame)
    (h : ∀ r ∈ df.rows, r.length = df.nCols) :
    ((missingReport df).map Prod.snd).sum = totalNulls df
    ∧ (noMissingMessageShown df = true ↔ totalNulls df = 0)
    ∧ (∀ p, p ∈ missingReport df ↔ p ∈ missingSeries df ∧ 0 < p.2) := by
  have hlen : (missingCountsByCol df).length = df.colNames.length := by
    simp [missingCountsByCol, DataFrame.nCols]
  have hsnd : (missingSeries df).map Prod.snd = missingCountsByCol df :=
    List.map_snd_zip _ _ (le_of_eq hlen)
  have hcolsum : (missingCountsByCol df).sum = totalNulls df := by
    unfold missingCountsByCol totalNulls countMissing DataFrame.columnCells
    exact col_sum_eq_row_sum (fun c => c.isNone) none df.nCols df.rows h
  have hpart1 : ((missingReport df).map Prod.snd).sum = totalNulls df := by
    calc ((missingReport df).map Prod.snd).sum
        = ((missingSeries df).map Prod.snd).sum := filter_pos_sum _
      _ = (missingCountsByCol df).sum := by rw [hsnd]
      _ = totalNulls df := hcolsum
  refine ⟨hpart1, ⟨?_, ?_⟩, ?_⟩
  · intro hmp
    have hmp2 : missingReport df = [] :=
      List.isEmpty_iff.1 hmp
    rw [← hcolsum, List.sum_eq_zero_iff]
    intro x hx
    rw [← hsnd] at hx
    rcases List.mem_map.1 hx with ⟨p, hp, rfl⟩
    have hnp := List.filter_eq_nil_iff.1 hmp2 p hp
    simpa using hnp
  · intro h0
    have hrep : missingReport df = [] := by
      rw [missingReport, List.filter_eq_nil_iff]
      intro p hp
      have hmem : p.2 ∈ missingCountsByCol df := by
        rw [← hsnd]; exact List.mem_map.2 ⟨p, hp, rfl⟩
      have hz := List.sum_eq_zero_iff.1 (hcolsum.trans h0) p.2 hmem
      simp [hz]
    show (missingReport df).isEmpty = true
    rw [hrep]
    rfl
  · intro p
    simp [missingReport, List.mem_filter]

/-- Witness for C7 at a concrete table with one missing entry per column:
the two reported counts sum to the table-wide null count 2. -/
theorem C7_missing_value_report_witness :
    ((missingReport ⟨["a", "b"], [.float64, .object],
        [[some (.num 1), none], [none, some (.str "x")],
         [some (.num 2), some (.str "y")]]⟩).map Prod.snd).sum
      = totalNulls ⟨["a", "b"], [.float64, .object],
        [[some (.num 1), none], [none, some (.str "x")],
         [some (.num 2), some (.str "y")]]⟩
    ∧ totalNulls ⟨["a", "b"], [.float64, .object],
        [[some (.num 1), none], [none, some (.str "x")],
         [some (.num 2), some (.str "y")]]⟩ = 2 := by
  refine ⟨(C7_missing_value_report _ ?_).1, rfl⟩
  intro r hr
  simp only [List.mem_cons, List.not_mem_nil, or_false] at hr
  rcases hr with rfl | rfl | rfl <;> rfl

/-- C8.  When a loader fails — the CSV parse raises, the warehouse loader
returns `None` after an error, the API call times out or raises a request
error — the session's stored table and both provenance slots are left
exactly as they were. -/
theorem C8_failed_load_preserves_session (s : SessionState) :
    (∀ fn e, csvBranch s fn (.error e) = s)
    ∧ (∀ e, snowflakeBranch s (.error e) = s)
    ∧ apiBranch s .timeout = s
    ∧ (∀ e, apiBranch s (.requestError e) = s) :=
  ⟨fun _ _ => rfl, fun _ => rfl, rfl, fun _ => rfl⟩

/-- C9.  A table with no numeric column makes the Charts tab warn and stop
before the chart-kind selector is reached: the refusal is identical for
every chart kind and no chart is constructed. -/
theorem C9_no_numeric_refusal (df : DataFrame) (ct : ChartType)
    (h : get_numeric_columns df = []) :
    chartsTab df ct = .refusedNoNumeric := by
  simp [chartsTab, h]

/-- Witness for C9 at a one-column all-text table. -/
theorem C9_no_numeric_refusal_witness :
    chartsTab ⟨["name"], [.object], [[some (.str "x")]]⟩ .bar
      = .refusedNoNumeric :=
  C9_no_numeric_refusal ⟨["name"], [.object], [[some (.str "x")]]⟩ .bar rfl

/-- C10.  The Export tab returns the session state unchanged (no slot is
written while building the CSV, Excel or filtered exports), and the
filtered frame keeps the column structure of the current table while its
rows are exactly the rows whose filter-column value is a member of the
selected set. -/
theorem C10_export_preserves_table (s : SessionState) (c : String)
    (sel : List (Option Json)) :
    (exportTab s c sel).1 = s
    ∧ (∀ df, s.df = some df →
        (filteredDf df c sel).colNames = df.colNames
        ∧ (filteredDf df c sel).dtypes = df.dtypes
        ∧ (filteredDf df c sel).rows
            = df.rows.filter (fun r =>
                sel.contains (r.getD (df.colNames.findIdx (fun n => n == c)) none))
        ∧ (exportTab s c sel).2.mainExport = some df) := by
  constructor
  · cases hdf : s.df <;> simp [exportTab, hdf]
  · intro df hdf
    refine ⟨rfl, rfl, ?_, ?_⟩
    · show ((df.rows.zip ((df.columnCells
          (df.colNames.findIdx (fun n => n == c))).map
            (fun cell => sel.contains cell))).filterMap
          (fun p => if p.2 then some p.1 else none)) = _
      rw [DataFrame.columnCells, List.map_map]
      exact mask_filter _ _
    · simp [exportTab, hdf]

/-- Witness for C10 at a concrete two-row table filtered on its `cat`
column with the single selected value `A`. -/
theorem C10_export_preserves_table_witness :
    (exportTab ⟨some ⟨["cat", "v"], [.object, .int64],
        [[some (.str "A"), some (.num 1)], [some (.str "B"), some (.num 2)]]⟩,
        some "CSV", some "f.csv"⟩ "cat" [some (.str "A")]).1
      = ⟨some ⟨["cat", "v"], [.object, .int64],
        [[some (.str "A"), some (.num 1)], [some (.str "B"), some (.num 2)]]⟩,
        some "CSV", some "f.csv"⟩
    ∧ (filteredDf ⟨["cat", "v"], [.object, .int64],
        [[some (.str "A"), some (.num 1)], [some (.str "B"), some (.num 2)]]⟩
        "cat" [some (.str "A")]).rows
      = (DataFrame.mk ["cat", "v"] [.object, .int64]
          [[some (.str "A"), some (.num 1)],
           [some (.str "B"), some (.num 2)]]).rows.filter
          (fun r => [some (Json.str "A")].contains
            (r.getD ((DataFrame.mk ["cat", "v"] [.object, .int64]
              [[some (.str "A"), some (.num 1)],
               [some (.str "B"), some (.num 2)]]).colNames.findIdx
                (fun n => n == "cat")) none)) := by
  refine ⟨(C10_export_preserves_table _ "cat" [some (.str "A")]).1, ?_⟩
  exact ((C10_export_preserves_table
    ⟨some ⟨["cat", "v"], [.object, .int64],
      [[some (.str "A"), some (.num 1)], [some (.str "B"), some (.num 2)]]⟩,
      some "CSV", some "f.csv"⟩ "cat" [some (.str "A")]).2
    ⟨["cat", "v"], [.object, .int64],
      [[some (.str "A"), some (.num 1)], [some (.str "B"), some (.num 2)]]⟩
    rfl).2.2.1
